import Mathlib

/-!
Verification of the credential and token authentication subsystem
(password hashing, API-key lifecycle, JWT issuance/refresh, dual-mode
request authentication) against its natural-language specification.

Shallow embedding conventions:
* Python `bytes` values are `List Nat` (each element intended < 256; the
  bound is carried as a hypothesis where proofs need it).
* Python `str` values that are inspected byte-wise (password-hash blobs,
  plaintext passwords after `.encode("utf-8")`) are also `List Nat`;
  opaque strings (usernames, raw API keys, secrets) are Lean `String`.
* `hashlib.scrypt` is an external library primitive, modelled as an
  explicit function parameter `Kdf`; a concrete stand-in `scryptModel`
  is supplied for witnesses.
* Randomness (`os.urandom`, `secrets.token_bytes`) is modelled by
  passing the drawn value as an explicit argument.
* The wall clock (`datetime.now`) is modelled by an explicit `now : Int`
  argument (seconds since the epoch, UTC).
* Fallible Python code (`try`/`except`, raised `HTTPException`s) is
  modelled with `Option`/`Except`.
-/

/-! ### Bytes and base64 (model of Python `base64.b64encode` / `b64decode`) -/

/-- The base64 alphabet: index 0..63 to ASCII code. -/
def b64char (i : Nat) : Nat :=
  if i < 26 then 65 + i
  else if i < 52 then 71 + i
  else if i < 62 then i - 4
  else if i = 62 then 43
  else 47

/-- Inverse of the base64 alphabet: ASCII code to 6-bit value, `none` for
characters outside the alphabet (including the pad character 61 = `=`). -/
def b64value (c : Nat) : Option Nat :=
  if 65 ≤ c ∧ c ≤ 90 then some (c - 65)
  else if 97 ≤ c ∧ c ≤ 122 then some (c - 71)
  else if 48 ≤ c ∧ c ≤ 57 then some (c + 4)
  else if c = 43 then some 62
  else if c = 47 then some 63
  else none

/-- RFC 4648 base64 encoding of a byte list, with `=` (61) padding,
as produced by Python's `base64.b64encode`. -/
def base64Encode : List Nat → List Nat
  | [] => []
  | [a] => [b64char (a / 4), b64char (a % 4 * 16), 61, 61]
  | [a, b] => [b64char (a / 4), b64char (a % 4 * 16 + b / 16), b64char (b % 16 * 4), 61]
  | a :: b :: c :: rest =>
    b64char (a / 4) :: b64char (a % 4 * 16 + b / 16) ::
      b64char (b % 16 * 4 + c / 64) :: b64char (c % 64) :: base64Encode rest

/-- Decode a base64 character stream four characters at a time, allowing
`=` padding only at the very end (one or two pad characters). -/
def base64DecodeQuads : List Nat → Option (List Nat)
  | [] => some []
  | a :: b :: c :: d :: rest =>
    match b64value a, b64value b with
    | some va, some vb =>
      if c == 61 then
        if d == 61 && rest.isEmpty then some [va * 4 + vb / 16] else none
      else
        match b64value c with
        | some vc =>
          if d == 61 then
            if rest.isEmpty then some [va * 4 + vb / 16, vb % 16 * 16 + vc / 4] else none
          else
            match b64value d, base64DecodeQuads rest with
            | some vd, some tail =>
              some ((va * 4 + vb / 16) :: (vb % 16 * 16 + vc / 4) :: (vc % 4 * 64 + vd) :: tail)
            | _, _ => none
        | none => none
    | _, _ => none
  | _ => none

/-- Model of Python `base64.b64decode` (default `validate=False`):
characters outside the alphabet and `=` are discarded, then the remaining
stream must consist of whole quads (otherwise `binascii.Error:
Incorrect padding` is raised, modelled as `none`). -/
def base64Decode (s : List Nat) : Option (List Nat) :=
  let kept := s.filter fun c => (b64value c).isSome || c == 61
  if kept.length % 4 == 0 then base64DecodeQuads kept else none

/-! ### Decimal rendering of naturals (model of `json.dumps` number output) -/

/-- Accumulate the decimal ASCII digits of `n`; `fuel ≥ n` suffices for
the recursion to finish. -/
def natBytesAux : Nat → Nat → List Nat → List Nat
  | 0, _, acc => acc
  | fuel + 1, n, acc => if n == 0 then acc else natBytesAux fuel (n / 10) ((n % 10 + 48) :: acc)

/-- Decimal ASCII representation of a natural number. -/
def natBytes (n : Nat) : List Nat :=
  if n == 0 then [48] else natBytesAux n n []

/-! ### The scrypt-parameter preamble

`get_password_hash` stores `json.dumps({"n": n, "r": r, "p": p, "dklen":
dklen})` in front of the salt and derived key.  `jsonDumps` reproduces that
byte string exactly (Python's default separators: `", "` and `": "`).
Byte literals: 123 `{`, 125 `}`, 34 `"`, 58 `:`, 32 space, 44 `,`,
110 `n`, 114 `r`, 112 `p`, 100 `d`, 107 `k`, 108 `l`, 101 `e`. -/

def jsonDumps (n r p dklen : Nat) : List Nat :=
  [123, 34, 110, 34, 58, 32] ++ natBytes n ++
    [44, 32, 34, 114, 34, 58, 32] ++ natBytes r ++
    [44, 32, 34, 112, 34, 58, 32] ++ natBytes p ++
    [44, 32, 34, 100, 107, 108, 101, 110, 34, 58, 32] ++ natBytes dklen ++ [125]

/-! ### A flat-JSON-object parser

Model of `json.loads(param_bytes)` followed by the `params["n"]`,
`params["r"]`, `params["p"]`, `params["dklen"]` lookups in
`verify_password`.  It parses a single flat JSON object whose values are
integers; keys may appear in any order, duplicates resolve to the last
occurrence (Python `dict` semantics), extra integer keys are ignored.
Inputs on which `json.loads` itself succeeds but the subsequent scrypt
call raises (`TypeError`/`ValueError` on non-integer values, string
escapes producing exotic keys, nested values) are collapsed to `none`:
in `verify_password` both outcomes are observationally the same
(`except Exception: return False`). -/

/-- Drop leading JSON whitespace. -/
def skipWs : List Nat → List Nat
  | c :: rest => if c == 32 || c == 9 || c == 10 || c == 13 then skipWs rest else c :: rest
  | [] => []

/-- Parse the characters of a JSON string up to the closing quote
(escape sequences are not modelled, see above). -/
def parseKeyChars : List Nat → Option (List Nat × List Nat)
  | [] => none
  | c :: rest =>
    if c == 34 then some ([], rest)
    else if c == 92 then none
    else
      match parseKeyChars rest with
      | some (k, r) => some (c :: k, r)
      | none => none

/-- Parse a quoted JSON string (the opening quote included). -/
def parseKeyQuoted : List Nat → Option (List Nat × List Nat)
  | 34 :: rest => parseKeyChars rest
  | _ => none

/-- Consume a maximal run of decimal digits, most significant first. -/
def parseDigits : List Nat → Nat → Nat × List Nat
  | c :: rest, acc =>
    if 48 ≤ c && c ≤ 57 then parseDigits rest (acc * 10 + (c - 48)) else (acc, c :: rest)
  | [], acc => (acc, [])

/-- Parse a JSON natural number (at least one digit, no leading zeros). -/
def parseNum : List Nat → Option (Nat × List Nat)
  | c :: rest =>
    if 48 ≤ c && c ≤ 57 then
      if c == 48 then
        match rest with
        | d :: _ => if 48 ≤ d && d ≤ 57 then none else some (0, rest)
        | [] => some (0, rest)
      else some (parseDigits rest (c - 48))
    else none
  | [] => none

/-- Parse a JSON integer (optional leading minus sign). -/
def parseIntTok : List Nat → Option (Int × List Nat)
  | 45 :: rest =>
    match parseNum rest with
    | some (n, r) => some (-(n : Int), r)
    | none => none
  | l =>
    match parseNum l with
    | some (n, r) => some ((n : Int), r)
    | none => none

/-- Parse the members of a flat JSON object after the opening brace,
returning the accumulated (key, integer value) pairs and the remainder
after the closing brace.  `fuel` bounds the recursion. -/
def parseMembers : Nat → List Nat → List (List Nat × Int) → Option (List (List Nat × Int) × List Nat)
  | 0, _, _ => none
  | fuel + 1, l, acc =>
    match parseKeyQuoted (skipWs l) with
    | none => none
    | some (k, rest) =>
      match skipWs rest with
      | 58 :: rest2 =>
        match parseIntTok (skipWs rest2) with
        | none => none
        | some (v, rest3) =>
          match skipWs rest3 with
          | 44 :: rest4 => parseMembers fuel rest4 (acc ++ [(k, v)])
          | 125 :: rest4 => some (acc ++ [(k, v)], rest4)
          | _ => none
      | _ => none

/-- Last binding of key `k` (Python `dict` keeps the last duplicate). -/
def lookupLast (members : List (List Nat × Int)) (k : List Nat) : Option Int :=
  ((members.filter (fun m => m.1 == k)).map (fun m => m.2)).getLast?

/-- Extract the `n`, `r`, `p`, `dklen` entries (key byte strings
`n` = [110], `r` = [114], `p` = [112], `dklen` = [100,107,108,101,110]);
a missing key is Python's `KeyError`, collapsed to `none`. -/
def lookup4 (ms : List (List Nat × Int)) : Option (Int × Int × Int × Int) :=
  match lookupLast ms [110], lookupLast ms [114], lookupLast ms [112],
      lookupLast ms [100, 107, 108, 101, 110] with
  | some n, some r, some p, some d => some (n, r, p, d)
  | _, _, _, _ => none

/-- Model of `json.loads` on the preamble slice plus the four parameter
lookups performed by `verify_password`. -/
def jsonLoadsParams (l : List Nat) : Option (Int × Int × Int × Int) :=
  match skipWs l with
  | 123 :: rest =>
    match skipWs rest with
    | 125 :: rest2 => if (skipWs rest2).isEmpty then lookup4 [] else none
    | _ =>
      match parseMembers (l.length + 1) rest [] with
      | some (members, rest2) => if (skipWs rest2).isEmpty then lookup4 members else none
      | none => none
  | _ => none

/-! ### src/core/auth/password.py -/

/-- Default scrypt parameters from `src/core/auth/password.py`. -/
def DEFAULT_N : Nat := 2 ^ 14

/-- Default scrypt block-size parameter. -/
def DEFAULT_R : Nat := 8

/-- Default scrypt parallelization parameter. -/
def DEFAULT_P : Nat := 1

/-- Default scrypt derived-key length. -/
def DEFAULT_DKLEN : Nat := 32

/-- The key-derivation function `hashlib.scrypt`, an external library
primitive: arguments are password bytes, salt bytes, `n`, `r`, `p`,
`dklen`; the result is the `dklen`-byte derived key. -/
def Kdf : Type := List Nat → List Nat → Nat → Nat → Nat → Nat → List Nat

/-- `n` is a power of two (and nonzero): `n &&& (n - 1) == 0`. -/
def isPow2 (n : Nat) : Bool := n != 0 && (n &&& (n - 1)) == 0

/-- Parameter validation performed by `hashlib.scrypt` itself: `n` must
be a power of two greater than 1, `r`, `p` and `dklen` positive; a
violation raises `ValueError`, which `verify_password` catches
(the OpenSSL memory limit is not modelled). -/
def scryptOk (n r p dklen : Int) : Bool :=
  1 < n && isPow2 n.toNat && 0 < r && 0 < p && 0 < dklen

/-- `get_password_hash(password, n, r, p, dklen)`: derive a key from the
password and a fresh 16-byte random salt and produce
`base64(json_params ++ ":" ++ salt ++ hash)`.  The salt drawn by
`os.urandom(16)` is passed explicitly. -/
def get_password_hash (kdf : Kdf) (password salt : List Nat)
    (n : Nat := DEFAULT_N) (r : Nat := DEFAULT_R) (p : Nat := DEFAULT_P)
    (dklen : Nat := DEFAULT_DKLEN) : List Nat :=
  base64Encode (jsonDumps n r p dklen ++ 58 :: (salt ++ kdf password salt n r p dklen))

/-- The brace-counting scan of `verify_password`: index of the byte at
which the running `{`/`}` count first returns to zero via a `}`
(byte 125), or `none` (Python's `json_end == -1`). -/
def braceScan : List Nat → Nat → Int → Option Nat
  | [], _, _ => none
  | c :: rest, i, depth =>
    if c == 123 then braceScan rest (i + 1) (depth + 1)
    else if c == 125 then
      if depth - 1 == 0 then some i else braceScan rest (i + 1) (depth - 1)
    else braceScan rest (i + 1) depth

/-- `bytes.find(target, start)`: index of the first occurrence of
`target` at an index `≥ start`, or `none` (Python's `-1`). -/
def findByteFrom (l : List Nat) (target start : Nat) : Option Nat :=
  go l 0
where
  /-- Walk the list tracking the current index. -/
  go : List Nat → Nat → Option Nat
    | [], _ => none
    | c :: rest, i => if start ≤ i && c == target then some i else go rest (i + 1)

/-- `verify_password(plain_password, hashed_password)`: decode the
stored blob, locate the end of the JSON preamble by brace counting,
find the `":"` separator, parse the parameters, recompute the derived
key over the 16-byte salt slice and compare with the stored tail.
The whole body runs under `try: ... except Exception: return False`,
so every parse failure yields `false`. -/
def verify_password (kdf : Kdf) (plain hashed : List Nat) : Bool :=
  match base64Decode hashed with
  | none => false
  | some decoded =>
    match braceScan decoded 0 0 with
    | none => false
    | some jsonEnd =>
      match findByteFrom decoded 58 jsonEnd with
      | none => false
      | some sepPos =>
        match jsonLoadsParams (decoded.take (jsonEnd + 1)) with
        | none => false
        | some (n, r, p, dk) =>
          if scryptOk n r p dk then
            let salt := (decoded.drop (sepPos + 1)).take 16
            let storedHash := decoded.drop (sepPos + 17)
            kdf plain salt n.toNat r.toNat p.toNat dk.toNat == storedHash
          else false

/-- A concrete computable stand-in for `hashlib.scrypt`, used by
witnesses: deterministic, returns `dklen` bytes each `< 256`. -/
def scryptModel : Kdf := fun pw salt n r p dklen =>
  List.replicate dklen
    ((pw.foldl (fun a b => a * 31 + b) 7 + salt.foldl (fun a b => a * 31 + b) 11 +
        n * 3 + r * 5 + p * 7) % 256)

/-! ### Python datetimes (for `src/core/auth/api_key_utils.py`) -/

/-- A Python `datetime`: `wall` is the clock reading shown by the fields
(in seconds), `tzOffset` is `none` for a naive datetime and `some o` for
an aware one with UTC offset `o` seconds.  The instant an aware datetime
denotes is `wall - o`. -/
structure PyDateTime where
  wall : Int
  tzOffset : Option Int
deriving DecidableEq

/-- The instant denoted by an aware datetime (`getD 0` is never exercised:
every comparison in the embedded code happens after normalization). -/
def PyDateTime.absTime (d : PyDateTime) : Int :=
  d.wall - d.tzOffset.getD 0

/-- Comparison `a > b` of two aware Python datetimes. -/
def dtGt (a b : PyDateTime) : Bool :=
  b.absTime < a.absTime

/-- `datetime.now(timezone.utc)` at clock reading `t`. -/
def utcNow (t : Int) : PyDateTime := ⟨t, some 0⟩

/-- `datetime.now()` (naive) at clock reading `t`. -/
def naiveNow (t : Int) : PyDateTime := ⟨t, none⟩

/-! ### src/core/auth/api_key_utils.py -/

/-- `_is_api_key_expired(expires_at)`: `None` never expires; a naive
`expires_at` is reinterpreted as UTC (`replace(tzinfo=timezone.utc)`)
before comparing with `datetime.now(timezone.utc)`. -/
def _is_api_key_expired (now : Int) (expires_at : Option PyDateTime) : Bool :=
  match expires_at with
  | none => false
  | some e =>
    let e' := if e.tzOffset = none then { e with tzOffset := some 0 } else e
    dtGt (utcNow now) e'

/-! ### src/core/auth/jwt.py

Signed tokens: a `Jwt` records its claim set and the secret used to sign
it; `verify_token` succeeds exactly when the verifying secret matches
(the HMAC model) and the token is unexpired.  The `sub` claim is stored
by the source as `str(user_id)`; since `str` is injective on ints and
the store lookups coerce it back, `sub` is modelled as the numeric id. -/

/-- `UserRole` enumeration. -/
inductive UserRole where
  | user
  | admin
deriving DecidableEq

/-- A decoded JWT claim set.  Absent claims are `none` (`payload.get`). -/
structure JwtClaims where
  sub : Option Nat
  exp : Int
  username : Option String
  email : Option String
  role : Option UserRole
  token_type : Option String
deriving DecidableEq

/-- A signed token: claims plus the signing secret (HMAC model). -/
structure Jwt where
  claims : JwtClaims
  secret : String
deriving DecidableEq

/-- Process configuration (`src/core/config/settings.py`), injected
explicitly. -/
structure Settings where
  JWT_SECRET_KEY : String
  JWT_ACCESS_TOKEN_EXPIRE_MINUTES : Nat
  JWT_REFRESH_TOKEN_EXPIRE_DAYS : Nat
deriving DecidableEq

/-- `create_access_token`: claims `sub`, `exp`, `username`, `email`,
`role` — and no `token_type` claim. -/
def create_access_token (s : Settings) (now : Int) (user_id : Nat)
    (username email : String) (role : UserRole)
    (expires_delta : Option Int := none) : Jwt :=
  ⟨⟨some user_id,
    now + expires_delta.getD (s.JWT_ACCESS_TOKEN_EXPIRE_MINUTES * 60),
    some username, some email, some role, none⟩, s.JWT_SECRET_KEY⟩

/-- `create_refresh_token`: claims `sub`, `exp`, `token_type: "refresh"`. -/
def create_refresh_token (s : Settings) (now : Int) (user_id : Nat)
    (expires_delta : Option Int := none) : Jwt :=
  ⟨⟨some user_id,
    now + expires_delta.getD (s.JWT_REFRESH_TOKEN_EXPIRE_DAYS * 86400),
    none, none, none, some "refresh"⟩, s.JWT_SECRET_KEY⟩

/-- The caller-visible failure of the embedded services: an
`HTTPException(status_code, detail, headers)`; `wwwAuthenticate` records
whether `headers={"WWW-Authenticate": "Bearer"}` was attached. -/
structure HTTPError where
  status : Nat
  detail : String
  wwwAuthenticate : Bool
deriving DecidableEq

/-- `verify_token(token)`: `jwt.decode` verifies the signature first
(`Invalid token` on mismatch), then expiry (`Token expired`). -/
def verify_token (s : Settings) (now : Int) (t : Jwt) : Except HTTPError JwtClaims :=
  if t.secret ≠ s.JWT_SECRET_KEY then .error ⟨401, "Invalid token", true⟩
  else if t.claims.exp ≤ now then .error ⟨401, "Token expired", true⟩
  else .ok t.claims

/-! ### Domain records and the credential store -/

/-- `User` database model (`src/domains/auth/models/user.py`); `password`
holds the stored hash blob's bytes. -/
structure User where
  id : Nat
  username : String
  email : String
  password : List Nat
  is_active : Bool
  role : UserRole
  created_at : PyDateTime
deriving DecidableEq

/-- `APIKey` database model (`src/domains/auth/models/api_key.py`). -/
structure APIKey where
  id : Nat
  key_hash : String
  user_id : Nat
  name : String
  expires_at : Option PyDateTime
  is_active : Bool
  last_used_at : Option PyDateTime
  created_at : PyDateTime
  updated_at : PyDateTime
deriving DecidableEq

/-- The database session's visible state.  `lastUsedWriteFails` injects a
`SQLAlchemyError` into the commit performed by
`APIKeyRepository.update_last_used` (the environment's failure mode for
the last-used touch); `nextApiKeyId` models primary-key autoincrement. -/
structure Db where
  users : List User
  apiKeys : List APIKey
  nextApiKeyId : Nat
  lastUsedWriteFails : Bool
deriving DecidableEq

/-- Service-level failure: a raised `HTTPException` or a
`DatabaseError` (`src/core/exceptions/base.py`; its message embeds the
driver's error text and is not modelled). -/
inductive ServiceErr where
  | http (e : HTTPError)
  | dbError
deriving DecidableEq

/-- Replace the first element satisfying `p` by its image under `f`
(SQLAlchemy mutates the single object returned by the lookup). -/
def updateFirst : List APIKey → (APIKey → Bool) → (APIKey → APIKey) → List APIKey
  | [], _, _ => []
  | x :: xs, p, f => if p x then f x :: xs else x :: updateFirst xs p f

/-! ### Repositories -/

namespace UserRepository

/-- `get_by_id`: `session.get(User, user_id)`. -/
def get_by_id (db : Db) (user_id : Nat) : Option User :=
  db.users.find? (fun u => u.id == user_id)

/-- `get_by_username`: first row with that username. -/
def get_by_username (db : Db) (username : String) : Option User :=
  db.users.find? (fun u => u.username == username)

end UserRepository

namespace APIKeyRepository

/-- `get_by_key_hash`: first row with that key hash. -/
def get_by_key_hash (db : Db) (key_hash : String) : Option APIKey :=
  db.apiKeys.find? (fun k => k.key_hash == key_hash)

/-- `get_by_id`: first row with that id. -/
def get_by_id (db : Db) (api_key_id : Nat) : Option APIKey :=
  db.apiKeys.find? (fun k => k.id == api_key_id)

/-- `create`: insert a new row with `is_active=True` and the model's
naive `datetime.now()` defaults for `created_at`/`updated_at`. -/
def create (db : Db) (now : Int) (key_hash : String) (user_id : Nat)
    (name : String) (expires_at : Option PyDateTime) : APIKey × Db :=
  let k : APIKey :=
    ⟨db.nextApiKeyId, key_hash, user_id, name, expires_at, true, none,
      naiveNow now, naiveNow now⟩
  (k, { db with apiKeys := db.apiKeys ++ [k], nextApiKeyId := db.nextApiKeyId + 1 })

/-- `update_last_used`: set `last_used_at`/`updated_at` to the aware
`datetime.now(timezone.utc)` on the row, if present; a `SQLAlchemyError`
during the commit is rolled back and re-raised as `DatabaseError`. -/
def update_last_used (db : Db) (now : Int) (api_key_id : Nat) : Except ServiceErr Db :=
  match get_by_id db api_key_id with
  | none => .ok db
  | some _ =>
    if db.lastUsedWriteFails then .error .dbError
    else .ok { db with
      apiKeys := updateFirst db.apiKeys (fun k => k.id == api_key_id)
        (fun k => { k with last_used_at := some (utcNow now), updated_at := utcNow now }) }

/-- `revoke`: set `is_active=False` on the row if present and return
`True`; `False` when the row does not exist. -/
def revoke (db : Db) (now : Int) (api_key_id : Nat) : Bool × Db :=
  match get_by_id db api_key_id with
  | none => (false, db)
  | some _ =>
    (true, { db with
      apiKeys := updateFirst db.apiKeys (fun k => k.id == api_key_id)
        (fun k => { k with is_active := false, updated_at := utcNow now }) })

end APIKeyRepository

/-! ### Response schemas -/

/-- `UserPublic` response schema. -/
structure UserPublic where
  id : Nat
  username : String
  email : String
  role : UserRole
  created_at : PyDateTime
  is_active : Bool
deriving DecidableEq

/-- `LoginResponse`: public user plus the freshly minted token pair. -/
structure LoginResponse where
  user : UserPublic
  access_token : Jwt
  refresh_token : Jwt
deriving DecidableEq

/-- `Token` response schema (refresh endpoint). -/
structure Token where
  access_token : Jwt
  refresh_token : Jwt
  token_type : String
deriving DecidableEq

/-- `APIKeyResponse`: the one response that carries the raw key. -/
structure APIKeyResponse where
  id : Nat
  key : String
  name : String
  created_at : PyDateTime
  expires_at : Option PyDateTime
  user_id : Nat
deriving DecidableEq

/-! ### src/domains/auth/services/user_service.py -/

namespace UserService

/-- `get_user(user_id)`: raises `HTTPException(404, "User with ID {id}
not found")` when the row is absent — it never returns `None`. -/
def get_user (db : Db) (user_id : Nat) : Except HTTPError User :=
  match UserRepository.get_by_id db user_id with
  | none => .error ⟨404, "User with ID " ++ toString user_id ++ " not found", false⟩
  | some u => .ok u

/-- `get_user_by_username(username)`: returns `None` when absent. -/
def get_user_by_username (db : Db) (username : String) : Option User :=
  UserRepository.get_by_username db username

end UserService

/-! ### src/domains/auth/services/auth_service.py -/

namespace AuthService

/-- `login(username, password)`: look the user up by username; a missing
user and a failed password check each raise the same
`HTTPException(401, "Invalid credentials")`; on success mint an
access/refresh pair. -/
def login (kdf : Kdf) (s : Settings) (db : Db) (now : Int)
    (username : String) (password : List Nat) : Except HTTPError LoginResponse :=
  match UserService.get_user_by_username db username with
  | none => .error ⟨401, "Invalid credentials", true⟩
  | some user =>
    if ¬ verify_password kdf password user.password then
      .error ⟨401, "Invalid credentials", true⟩
    else
      .ok ⟨⟨user.id, user.username, user.email, user.role, user.created_at, user.is_active⟩,
        create_access_token s now user.id user.username user.email user.role,
        create_refresh_token s now user.id⟩

/-- `refresh_token(refresh_token_str)`: verify, require
`token_type == "refresh"`, require `sub`, load the user via
`UserService.get_user` (whose 404 passes through the
`except HTTPException: raise` handler unchanged), require `is_active`,
then issue a fresh pair.  The source's own `if not user:` branch is
unreachable because `get_user` raises instead of returning `None`. -/
def refresh_token (s : Settings) (db : Db) (now : Int) (tok : Jwt) : Except HTTPError Token :=
  match verify_token s now tok with
  | .error e => .error e
  | .ok payload =>
    if payload.token_type ≠ some "refresh" then
      .error ⟨401, "Invalid token type", true⟩
    else
      match payload.sub with
      | none => .error ⟨401, "Invalid token payload", true⟩
      | some user_id =>
        match UserService.get_user db user_id with
        | .error e => .error e
        | .ok user =>
          if ¬ user.is_active then .error ⟨401, "Inactive user", true⟩
          else
            .ok ⟨create_access_token s now user.id user.username user.email user.role,
              create_refresh_token s now user.id, "bearer"⟩

end AuthService

/-! ### src/domains/auth/services/api_key_service.py

`_hash_api_key` (SHA-256 hex digest) is an external hash primitive,
passed as the explicit parameter `keyHash`; the raw key drawn by
`_generate_api_key` is likewise passed in. -/

namespace APIKeyService

/-- `create_api_key(user_id, name, expires_in_days)`: a `None`, zero or
negative `expires_in_days` stores `expires_at=None`; a positive one
stores `now + expires_in_days` days (aware UTC). -/
def create_api_key (keyHash : String → String) (db : Db) (now : Int)
    (user_id : Nat) (name : String) (expires_in_days : Option Int)
    (rawKey : String) : APIKeyResponse × Db :=
  let expires_at : Option PyDateTime :=
    match expires_in_days with
    | some d => if 0 < d then some ⟨now + d * 86400, some 0⟩ else none
    | none => none
  let kh := keyHash rawKey
  let (dbKey, db') := APIKeyRepository.create db now kh user_id name expires_at
  (⟨dbKey.id, rawKey, dbKey.name, dbKey.created_at, dbKey.expires_at, dbKey.user_id⟩, db')

/-- `validate_api_key(api_key)`: hash, look up, require `is_active`,
require unexpired (`expires_at and _is_api_key_expired(...)` — a
`datetime` is always truthy, so this is "present and expired"), then
update the last-used timestamp and return the record.  A
`DatabaseError` raised by the update propagates to the caller. -/
def validate_api_key (keyHash : String → String) (db : Db) (now : Int)
    (api_key : String) : Except ServiceErr (APIKey × Db) :=
  match APIKeyRepository.get_by_key_hash db (keyHash api_key) with
  | none => .error (.http ⟨401, "Invalid API key", true⟩)
  | some k =>
    if ¬ k.is_active then .error (.http ⟨401, "API key has been revoked", true⟩)
    else if k.expires_at.isSome && _is_api_key_expired now k.expires_at then
      .error (.http ⟨401, "API key has expired", true⟩)
    else
      match APIKeyRepository.update_last_used db now k.id with
      | .error e => .error e
      | .ok db' => .ok (k, db')

/-- `revoke_api_key(api_key, user_id)`: resolve by hash (404 when
absent), require ownership (403 otherwise), then
`APIKeyRepository.revoke` — which returns `True` whenever the row
exists, already-inactive or not. -/
def revoke_api_key (keyHash : String → String) (db : Db) (now : Int)
    (api_key : String) (user_id : Nat) : Except HTTPError (Bool × Db) :=
  match APIKeyRepository.get_by_key_hash db (keyHash api_key) with
  | none => .error ⟨404, "API key not found", false⟩
  | some k =>
    if k.user_id ≠ user_id then
      .error ⟨403, "Not authorized to revoke this API key", false⟩
    else
      .ok (APIKeyRepository.revoke db now k.id)

end APIKeyService

/-! ### src/api/dependencies/auth.py -/

/-- `get_current_user(credentials)`: the bearer-token path.  The
`try`/`except Exception` collapses every verification or missing-`sub`
failure to `401 "Could not validate credentials"`; then the user is
loaded and must exist and be active. -/
def get_current_user (s : Settings) (db : Db) (now : Int) (tok : Jwt) :
    Except HTTPError User :=
  match verify_token s now tok with
  | .error _ => .error ⟨401, "Could not validate credentials", true⟩
  | .ok payload =>
    match payload.sub with
    | none => .error ⟨401, "Could not validate credentials", true⟩
    | some user_id =>
      match db.users.find? (fun u => u.id == user_id) with
      | none => .error ⟨401, "User not found", true⟩
      | some user =>
        if ¬ user.is_active then .error ⟨401, "Inactive user", true⟩
        else .ok user

/-- `verify_api_key(api_key)`: the API-key path.  `HTTPException`s from
`validate_api_key` re-raise unchanged; any other exception (including a
`DatabaseError` from the last-used touch) becomes
`401 "Could not validate API key"`; then the owning user is loaded and
must exist and be active. -/
def verify_api_key (keyHash : String → String) (db : Db) (now : Int)
    (api_key : String) : Except HTTPError User :=
  match APIKeyService.validate_api_key keyHash db now api_key with
  | .error (.http e) => .error e
  | .error .dbError => .error ⟨401, "Could not validate API key", true⟩
  | .ok (record, db') =>
    match db'.users.find? (fun u => u.id == record.user_id) with
    | none => .error ⟨401, "User not found", true⟩
    | some user =>
      if ¬ user.is_active then .error ⟨401, "Inactive user", true⟩
      else .ok user

/-! ### Concrete fixtures used by witnesses and counterexamples -/

/-- The default configuration values of `src/core/config/settings.py`. -/
def settingsEx : Settings := ⟨"secret", 30, 7⟩

/-- A stand-in for the external `_hash_api_key` primitive in witnesses. -/
def idHash : String → String := fun s => s

/-- The epoch as an aware UTC datetime. -/
def dtEpochUtc : PyDateTime := ⟨0, some 0⟩

/-- An active user (the empty password blob is an invalid stored hash,
so every password fails verification against it). -/
def userAlice : User := ⟨1, "alice", "alice@example.com", [], true, .user, dtEpochUtc⟩

/-- An inactive user with the same id. -/
def userCarol : User := ⟨1, "carol", "carol@example.com", [], false, .user, dtEpochUtc⟩

/-- An empty store. -/
def dbEmpty : Db := ⟨[], [], 1, false⟩

/-- A store holding only `userAlice`. -/
def dbAlice : Db := ⟨[userAlice], [], 1, false⟩

/-- A store holding only the inactive `userCarol`. -/
def dbCarol : Db := ⟨[userCarol], [], 1, false⟩

/-- An active, never-expiring API key owned by user 1; its hash under
`idHash` is the raw key `"k1"` itself. -/
def keyCi : APIKey := ⟨1, "k1", 1, "ci-key", none, true, none, ⟨0, none⟩, ⟨0, none⟩⟩

/-- Store with `userAlice` and `keyCi`, healthy writes. -/
def dbTouchOk : Db := ⟨[userAlice], [keyCi], 2, false⟩

/-- Same store, but the last-used-touch commit fails. -/
def dbTouchFail : Db := ⟨[userAlice], [keyCi], 2, true⟩

/-- Store with the inactive `userCarol` owning `keyCi`. -/
def dbCarolKey : Db := ⟨[userCarol], [keyCi], 2, false⟩

/-- A well-formed refresh token for user 1 under `settingsEx`. -/
def tokRefreshEx : Jwt := ⟨⟨some 1, 100, none, none, none, some "refresh"⟩, "secret"⟩

/-- A refresh-typed token whose claims lack `sub`. -/
def tokNoSub : Jwt := ⟨⟨none, 100, none, none, none, some "refresh"⟩, "secret"⟩

/-- A 16-byte salt of zeros. -/
def salt16 : List Nat := List.replicate 16 0

/-! # Theorems -/

/-! ### base64 round trip -/

/-- The base64 alphabet tables invert each other. -/
theorem b64value_b64char_all : ∀ i < 64, b64value (b64char i) = some i := by decide

/-- Implication form of `b64value_b64char_all`. -/
theorem b64value_b64char (i : Nat) (h : i < 64) : b64value (b64char i) = some i :=
  b64value_b64char_all i h

/-- No alphabet character is the pad character. -/
theorem b64char_ne_pad_all : ∀ i < 64, (b64char i == 61) = false := by decide

/-- Implication form of `b64char_ne_pad_all`. -/
theorem b64char_ne_pad (i : Nat) (h : i < 64) : (b64char i == 61) = false :=
  b64char_ne_pad_all i h

/-- Every character emitted by `base64Encode` survives `base64Decode`'s
filter. -/
theorem base64Encode_valid (l : List Nat) (h : ∀ b ∈ l, b < 256) :
    ∀ c ∈ base64Encode l, ((b64value c).isSome || c == 61) = true := by
  induction l using base64Encode.induct with
  | case1 => simp [base64Encode]
  | case2 a =>
    have ha : a < 256 := h a (by simp)
    intro c hc
    simp only [base64Encode, List.mem_cons, List.not_mem_nil, or_false] at hc
    rcases hc with rfl | rfl | rfl | rfl
    · rw [b64value_b64char _ (by omega)]; simp
    · rw [b64value_b64char _ (by omega)]; simp
    · simp
    · simp
  | case3 a b =>
    have ha : a < 256 := h a (by simp)
    have hb : b < 256 := h b (by simp)
    intro c hc
    simp only [base64Encode, List.mem_cons, List.not_mem_nil, or_false] at hc
    rcases hc with rfl | rfl | rfl | rfl
    · rw [b64value_b64char _ (by omega)]; simp
    · rw [b64value_b64char _ (by omega)]; simp
    · rw [b64value_b64char _ (by omega)]; simp
    · simp
  | case4 a b c rest ih =>
    have ha : a < 256 := h a (by simp)
    have hb : b < 256 := h b (by simp)
    have hc : c < 256 := h c (by simp)
    intro x hx
    simp only [base64Encode, List.mem_cons] at hx
    rcases hx with rfl | rfl | rfl | rfl | hx
    · rw [b64value_b64char _ (by omega)]; simp
    · rw [b64value_b64char _ (by omega)]; simp
    · rw [b64value_b64char _ (by omega)]; simp
    · rw [b64value_b64char _ (by omega)]; simp
    · exact ih (fun y hy => h y (by simp [hy])) x hx

/-- `base64Encode` emits whole quads. -/
theorem base64Encode_len_mod (l : List Nat) : (base64Encode l).length % 4 = 0 := by
  induction l using base64Encode.induct with
  | case1 => simp [base64Encode]
  | case2 a => simp [base64Encode]
  | case3 a b => simp [base64Encode]
  | case4 a b c rest ih => simp [base64Encode]; omega

/-- Quad-wise decoding inverts `base64Encode`. -/
theorem base64DecodeQuads_encode (l : List Nat) (h : ∀ b ∈ l, b < 256) :
    base64DecodeQuads (base64Encode l) = some l := by
  induction l using base64Encode.induct with
  | case1 => rfl
  | case2 a =>
    have ha : a < 256 := h a (by simp)
    simp only [base64Encode, base64DecodeQuads,
      b64value_b64char _ (show a / 4 < 64 by omega),
      b64value_b64char _ (show a % 4 * 16 < 64 by omega)]
    simp only [beq_self_eq_true, if_true, List.isEmpty_nil, Bool.and_self,
      Option.some.injEq, List.cons.injEq, and_true]
    omega
  | case3 a b =>
    have ha : a < 256 := h a (by simp)
    have hb : b < 256 := h b (by simp)
    simp only [base64Encode, base64DecodeQuads,
      b64value_b64char _ (show a / 4 < 64 by omega),
      b64value_b64char _ (show a % 4 * 16 + b / 16 < 64 by omega),
      b64value_b64char _ (show b % 16 * 4 < 64 by omega),
      b64char_ne_pad _ (show b % 16 * 4 < 64 by omega)]
    simp only [Bool.false_eq_true, if_false, beq_self_eq_true, if_true,
      List.isEmpty_nil, Option.some.injEq, List.cons.injEq, and_true]
    constructor <;> omega
  | case4 a b c rest ih =>
    have ha : a < 256 := h a (by simp)
    have hb : b < 256 := h b (by simp)
    have hc : c < 256 := h c (by simp)
    have ih' := ih (fun y hy => h y (by simp [hy]))
    simp only [base64Encode, base64DecodeQuads,
      b64value_b64char _ (show a / 4 < 64 by omega),
      b64value_b64char _ (show a % 4 * 16 + b / 16 < 64 by omega),
      b64value_b64char _ (show b % 16 * 4 + c / 64 < 64 by omega),
      b64value_b64char _ (show c % 64 < 64 by omega),
      b64char_ne_pad _ (show b % 16 * 4 + c / 64 < 64 by omega),
      b64char_ne_pad _ (show c % 64 < 64 by omega), ih']
    simp only [Bool.false_eq_true, if_false, Option.some.injEq, List.cons.injEq]
    refine ⟨by omega, by omega, by omega, trivial⟩

/-- `base64Decode` inverts `base64Encode` on byte lists. -/
theorem base64_roundtrip (l : List Nat) (h : ∀ b ∈ l, b < 256) :
    base64Decode (base64Encode l) = some l := by
  simp only [base64Decode]
  rw [List.filter_eq_self.mpr (base64Encode_valid l h)]
  simp [base64Encode_len_mod l, base64DecodeQuads_encode l h]

/-! ### verify ∘ hash -/

/-- Parsing a blob produced by `get_password_hash` (at the default cost
parameters) recovers exactly the stored parameters, salt and derived
key, so verification reduces to comparing the recomputed key with the
stored one. -/
theorem verify_get_password_hash (kdf : Kdf) (plain pw salt : List Nat)
    (hs : salt.length = 16) (hsb : ∀ b ∈ salt, b < 256)
    (hkb : ∀ b ∈ kdf pw salt DEFAULT_N DEFAULT_R DEFAULT_P DEFAULT_DKLEN, b < 256) :
    verify_password kdf plain (get_password_hash kdf pw salt) =
      (kdf plain salt DEFAULT_N DEFAULT_R DEFAULT_P DEFAULT_DKLEN ==
       kdf pw salt DEFAULT_N DEFAULT_R DEFAULT_P DEFAULT_DKLEN) := by
  set key := kdf pw salt DEFAULT_N DEFAULT_R DEFAULT_P DEFAULT_DKLEN with hkeydef
  have hjson : ∀ b ∈ jsonDumps DEFAULT_N DEFAULT_R DEFAULT_P DEFAULT_DKLEN, b < 256 := by
    intro b hb
    have hallj : (jsonDumps DEFAULT_N DEFAULT_R DEFAULT_P DEFAULT_DKLEN).all
        (fun x => decide (x < 256)) = true := by decide
    exact of_decide_eq_true (List.all_eq_true.mp hallj b hb)
  have hall : ∀ b ∈ jsonDumps DEFAULT_N DEFAULT_R DEFAULT_P DEFAULT_DKLEN ++
      58 :: (salt ++ key), b < 256 := by
    intro b hb
    rcases List.mem_append.mp hb with h | h
    · exact hjson b h
    · rcases List.mem_cons.mp h with rfl | h
      · omega
      · rcases List.mem_append.mp h with h | h
        · exact hsb b h
        · exact hkb b h
  have e1 : braceScan (jsonDumps DEFAULT_N DEFAULT_R DEFAULT_P DEFAULT_DKLEN ++
      58 :: (salt ++ key)) 0 0 = some 40 := rfl
  have e2 : findByteFrom (jsonDumps DEFAULT_N DEFAULT_R DEFAULT_P DEFAULT_DKLEN ++
      58 :: (salt ++ key)) 58 40 = some 41 := rfl
  have e3 : (jsonDumps DEFAULT_N DEFAULT_R DEFAULT_P DEFAULT_DKLEN ++
      58 :: (salt ++ key)).take (40 + 1) = jsonDumps DEFAULT_N DEFAULT_R DEFAULT_P DEFAULT_DKLEN := rfl
  have e4 : jsonLoadsParams (jsonDumps DEFAULT_N DEFAULT_R DEFAULT_P DEFAULT_DKLEN) =
      some (16384, 8, 1, 32) := by decide
  have e5 : scryptOk 16384 8 1 32 = true := by decide
  have e6 : (jsonDumps DEFAULT_N DEFAULT_R DEFAULT_P DEFAULT_DKLEN ++
      58 :: (salt ++ key)).drop (41 + 1) = salt ++ key := rfl
  have e7 : (jsonDumps DEFAULT_N DEFAULT_R DEFAULT_P DEFAULT_DKLEN ++
      58 :: (salt ++ key)).drop (41 + 17) = (salt ++ key).drop 16 := rfl
  have e8 : (salt ++ key).take 16 = salt := by rw [← hs, List.take_left]
  have e9 : (salt ++ key).drop 16 = key := by rw [← hs, List.drop_left]
  have d1 : ((16384 : Int)).toNat = DEFAULT_N := by decide
  have d2 : ((8 : Int)).toNat = DEFAULT_R := by decide
  have d3 : ((1 : Int)).toNat = DEFAULT_P := by decide
  have d4 : ((32 : Int)).toNat = DEFAULT_DKLEN := by decide
  simp only [verify_password, get_password_hash, base64_roundtrip _ hall,
    e1, e2, e3, e4, e5, e6, e7, e8, e9, d1, d2, d3, d4, if_true]

/-- C3: for every password `p`, `verify_password(p, get_password_hash(p))`
is true for any salt the hash call draws, and for distinct passwords
`p1 ≠ p2`, `verify_password(p1, get_password_hash(p2))` is false.
Distinctness of passwords reaches the comparison only through the derived
keys, so the mismatch half is stated via the KDF collision-freeness that
the claim presupposes of scrypt: `kdf p1 salt … ≠ kdf p2 salt …`. -/
theorem password_roundtrip_and_mismatch (kdf : Kdf) (salt p1 p2 : List Nat)
    (hs : salt.length = 16) (hsb : ∀ b ∈ salt, b < 256)
    (h1b : ∀ b ∈ kdf p1 salt DEFAULT_N DEFAULT_R DEFAULT_P DEFAULT_DKLEN, b < 256)
    (h2b : ∀ b ∈ kdf p2 salt DEFAULT_N DEFAULT_R DEFAULT_P DEFAULT_DKLEN, b < 256)
    (hne : kdf p1 salt DEFAULT_N DEFAULT_R DEFAULT_P DEFAULT_DKLEN ≠
           kdf p2 salt DEFAULT_N DEFAULT_R DEFAULT_P DEFAULT_DKLEN) :
    verify_password kdf p1 (get_password_hash kdf p1 salt) = true ∧
    verify_password kdf p2 (get_password_hash kdf p2 salt) = true ∧
    verify_password kdf p1 (get_password_hash kdf p2 salt) = false := by
  refine ⟨?_, ?_, ?_⟩
  · rw [verify_get_password_hash kdf p1 p1 salt hs hsb h1b]
    exact beq_self_eq_true _
  · rw [verify_get_password_hash kdf p2 p2 salt hs hsb h2b]
    exact beq_self_eq_true _
  · rw [verify_get_password_hash kdf p1 p2 salt hs hsb h2b]
    exact beq_eq_false_iff_ne.mpr hne

/-- Witness for C3 at the model KDF, the zero salt and passwords
`[0]`, `[1]`. -/
theorem password_roundtrip_and_mismatch_witness :
    verify_password scryptModel [0] (get_password_hash scryptModel [0] salt16) = true ∧
    verify_password scryptModel [1] (get_password_hash scryptModel [1] salt16) = true ∧
    verify_password scryptModel [0] (get_password_hash scryptModel [1] salt16) = false :=
  password_roundtrip_and_mismatch scryptModel salt16 [0] [1]
    (by decide) (by decide) (by decide) (by decide) (by decide)

/-! ### C2: fail-closed verification -/

/-- C2: `verify_password` is total (it is a Lean function into `Bool`,
so it can neither raise nor diverge) and fails closed: each parse
failure of the stored blob — invalid base64, no balanced brace-delimited
preamble, no `":"` separator after the preamble, unparsable or
incomplete JSON parameters, parameters scrypt itself would reject, or a
blob too short to contain the 16-byte salt plus a full derived key —
yields `false`.  The truncation conjunct uses the KDF's output-length
law (`hashlib.scrypt` returns exactly `dklen` bytes). -/
theorem verify_password_fail_closed (kdf : Kdf) (plain blob : List Nat) :
    (base64Decode blob = none → verify_password kdf plain blob = false) ∧
    (∀ d, base64Decode blob = some d → braceScan d 0 0 = none →
      verify_password kdf plain blob = false) ∧
    (∀ d j, base64Decode blob = some d → braceScan d 0 0 = some j →
      findByteFrom d 58 j = none → verify_password kdf plain blob = false) ∧
    (∀ d j sp, base64Decode blob = some d → braceScan d 0 0 = some j →
      findByteFrom d 58 j = some sp → jsonLoadsParams (d.take (j + 1)) = none →
      verify_password kdf plain blob = false) ∧
    (∀ d j sp n r p dk, base64Decode blob = some d → braceScan d 0 0 = some j →
      findByteFrom d 58 j = some sp →
      jsonLoadsParams (d.take (j + 1)) = some (n, r, p, dk) →
      scryptOk n r p dk = false → verify_password kdf plain blob = false) ∧
    (∀ d j sp n r p dk, base64Decode blob = some d → braceScan d 0 0 = some j →
      findByteFrom d 58 j = some sp →
      jsonLoadsParams (d.take (j + 1)) = some (n, r, p, dk) →
      scryptOk n r p dk = true →
      (∀ s, (kdf plain s n.toNat r.toNat p.toNat dk.toNat).length = dk.toNat) →
      d.length < sp + 17 + dk.toNat → verify_password kdf plain blob = false) := by
  refine ⟨?_, ?_, ?_, ?_, ?_, ?_⟩
  · intro h1
    simp only [verify_password, h1]
  · intro d h1 h2
    simp only [verify_password, h1, h2]
  · intro d j h1 h2 h3
    simp only [verify_password, h1, h2, h3]
  · intro d j sp h1 h2 h3 h4
    simp only [verify_password, h1, h2, h3, h4]
  · intro d j sp n r p dk h1 h2 h3 h4 h5
    simp only [verify_password, h1, h2, h3, h4, h5, Bool.false_eq_true, if_false]
  · intro d j sp n r p dk h1 h2 h3 h4 h5 hlen hshort
    simp only [verify_password, h1, h2, h3, h4, h5, if_true]
    have hdk : 0 < dk := by
      simp only [scryptOk, Bool.and_eq_true, decide_eq_true_eq] at h5
      exact h5.2
    refine beq_eq_false_iff_ne.mpr (fun hEq => ?_)
    have := congrArg List.length hEq
    rw [hlen, List.length_drop] at this
    omega

/-- Witness for C2: a single non-alphabet-sized character is invalid
base64, and the empty decoded byte string has no brace-delimited
preamble; both yield `false`. -/
theorem verify_password_fail_closed_witness :
    verify_password scryptModel [] [65] = false ∧
    verify_password scryptModel [] [] = false :=
  ⟨(verify_password_fail_closed scryptModel [] [65]).1 (by decide),
   (verify_password_fail_closed scryptModel [] []).2.1 [] (by decide) (by decide)⟩

/-! ### C1: login anti-enumeration -/

/-- C1: a login against a store where the username is absent and a login
against a store where the user exists but the password fails
verification produce the *same* `Unauthorized` error value — status 401,
detail `"Invalid credentials"`, `WWW-Authenticate` header — so the
caller-visible failure reveals nothing about which check failed. -/
theorem login_indistinguishable_failures (kdf : Kdf) (s : Settings)
    (db db' : Db) (now now' : Int) (username : String) (pw pw' : List Nat) (u : User)
    (habsent : UserService.get_user_by_username db username = none)
    (hfound : UserService.get_user_by_username db' username = some u)
    (hbadpw : verify_password kdf pw' u.password = false) :
    AuthService.login kdf s db now username pw = .error ⟨401, "Invalid credentials", true⟩ ∧
    AuthService.login kdf s db' now' username pw' = .error ⟨401, "Invalid credentials", true⟩ ∧
    AuthService.login kdf s db now username pw =
      AuthService.login kdf s db' now' username pw' := by
  have h1 : AuthService.login kdf s db now username pw =
      .error ⟨401, "Invalid credentials", true⟩ := by
    simp only [AuthService.login, habsent]
  have h2 : AuthService.login kdf s db' now' username pw' =
      .error ⟨401, "Invalid credentials", true⟩ := by
    simp only [AuthService.login, hfound, hbadpw, Bool.false_eq_true, not_false_iff, if_true]
  exact ⟨h1, h2, h1.trans h2.symm⟩

/-- Witness for C1: `"alice"` is absent from the empty store and present
with an unverifiable (empty) stored blob in `dbAlice`. -/
theorem login_indistinguishable_failures_witness :
    AuthService.login scryptModel settingsEx dbEmpty 0 "alice" [] =
      .error ⟨401, "Invalid credentials", true⟩ ∧
    AuthService.login scryptModel settingsEx dbAlice 0 "alice" [] =
      .error ⟨401, "Invalid credentials", true⟩ ∧
    AuthService.login scryptModel settingsEx dbEmpty 0 "alice" [] =
      AuthService.login scryptModel settingsEx dbAlice 0 "alice" [] :=
  login_indistinguishable_failures scryptModel settingsEx dbEmpty dbAlice 0 0
    "alice" [] [] userAlice (by decide) (by decide) (by decide)

/-! ### C6: refresh token-type and payload checks -/

/-- C6: for every token that verifies under the configured secret but
whose claims lack `token_type = "refresh"`, refresh fails 401
`"Invalid token type"`; every access token carries no `token_type`
claim at all; and a verified refresh-typed token whose claims lack
`sub` fails 401 `"Invalid token payload"`. -/
theorem refresh_token_type_and_payload_checks (s : Settings) (db : Db)
    (now : Int) (tok : Jwt) (claims : JwtClaims)
    (hv : verify_token s now tok = .ok claims) :
    (claims.token_type ≠ some "refresh" →
      AuthService.refresh_token s db now tok = .error ⟨401, "Invalid token type", true⟩) ∧
    (∀ uid username email role d,
      (create_access_token s now uid username email role d).claims.token_type = none) ∧
    (claims.token_type = some "refresh" → claims.sub = none →
      AuthService.refresh_token s db now tok = .error ⟨401, "Invalid token payload", true⟩) := by
  refine ⟨?_, fun _ _ _ _ _ => rfl, ?_⟩
  · intro hty
    simp only [AuthService.refresh_token, hv]
    rw [if_pos hty]
  · intro hty hsub
    simp only [AuthService.refresh_token, hv, hty, hsub, ne_eq, not_true_eq_false, if_false]

/-- Witness for C6 using an access token (no `token_type` claim) and a
refresh-typed token without `sub`, both verified under the default
settings. -/
theorem refresh_token_type_and_payload_checks_witness :
    AuthService.refresh_token settingsEx dbAlice 0
      (create_access_token settingsEx 0 1 "alice" "alice@example.com" .user) =
      .error ⟨401, "Invalid token type", true⟩ ∧
    AuthService.refresh_token settingsEx dbAlice 0 tokNoSub =
      .error ⟨401, "Invalid token payload", true⟩ :=
  ⟨(refresh_token_type_and_payload_checks settingsEx dbAlice 0
      (create_access_token settingsEx 0 1 "alice" "alice@example.com" .user)
      (create_access_token settingsEx 0 1 "alice" "alice@example.com" .user).claims
      rfl).1 (by decide),
   (refresh_token_type_and_payload_checks settingsEx dbAlice 0 tokNoSub
      tokNoSub.claims rfl).2.2 (by decide) (by decide)⟩

/-! ### C4: refresh with a missing or inactive user -/

/-- C4 (code bug evidence): a refresh token that passes the signature,
expiry, token-type and `sub` checks but names a user id absent from the
store makes `AuthService.refresh_token` fail with the *404* raised by
`UserService.get_user` — not with `Unauthorized` as the specification
requires (the service's own 401 `"User not found"` branch is dead code).
An inactive user does fail with 401 `"Inactive user"`, and no token pair
is issued in either case. -/
theorem refresh_missing_user_is_404 :
    AuthService.refresh_token settingsEx dbEmpty 0 tokRefreshEx =
      .error ⟨404, "User with ID 1 not found", false⟩ ∧
    (404 : Nat) ≠ 401 ∧
    AuthService.refresh_token settingsEx dbCarol 0 tokRefreshEx =
      .error ⟨401, "Inactive user", true⟩ :=
  ⟨rfl, by decide, rfl⟩

/-! ### C8: API-key expiry predicate -/

/-- C8: `_is_api_key_expired(None)` is false; an expiry strictly later
than the current time is not expired; one strictly earlier is expired;
and a timezone-naive expiry is interpreted as UTC before the comparison
(its instant is its wall-clock reading, and it behaves exactly like the
aware UTC datetime with the same reading). -/
theorem api_key_expiry_semantics (t w : Int) (e : PyDateTime) :
    _is_api_key_expired t none = false ∧
    (t < (if e.tzOffset = none then e.wall else e.absTime) →
      _is_api_key_expired t (some e) = false) ∧
    ((if e.tzOffset = none then e.wall else e.absTime) < t →
      _is_api_key_expired t (some e) = true) ∧
    _is_api_key_expired t (some ⟨w, none⟩) = _is_api_key_expired t (some ⟨w, some 0⟩) := by
  obtain ⟨wall, tz⟩ := e
  refine ⟨rfl, ?_, ?_, ?_⟩
  · intro h
    cases tz <;> simp_all [_is_api_key_expired, dtGt, PyDateTime.absTime, utcNow]
    all_goals omega
  · intro h
    cases tz <;> simp_all [_is_api_key_expired, dtGt, PyDateTime.absTime, utcNow]
  · rfl

/-- Witness for C8 at `t = 0` with a future aware expiry and a past
naive expiry. -/
theorem api_key_expiry_semantics_witness :
    _is_api_key_expired 0 (some ⟨5, some 0⟩) = false ∧
    _is_api_key_expired 0 (some ⟨-5, none⟩) = true :=
  ⟨(api_key_expiry_semantics 0 0 ⟨5, some 0⟩).2.1 (by decide),
   (api_key_expiry_semantics 0 0 ⟨-5, none⟩).2.2.1 (by decide)⟩

/-! ### C10: create-key expiry normalization -/

/-- C10: `create_api_key` stores `expires_at = None` (a never-expiring
key) for an `expires_in_days` that is `None`, zero or negative alike —
in both the returned response and the persisted record — and only a
strictly positive `expires_in_days` yields the finite expiry
`now + expires_in_days` days. -/
theorem create_api_key_expiry (keyHash : String → String) (db : Db) (now : Int)
    (uid : Nat) (name rawKey : String) :
    ((APIKeyService.create_api_key keyHash db now uid name none rawKey).1.expires_at = none ∧
      (APIKeyService.create_api_key keyHash db now uid name none rawKey).2.apiKeys =
        db.apiKeys ++
          [⟨db.nextApiKeyId, keyHash rawKey, uid, name, none, true, none,
            naiveNow now, naiveNow now⟩]) ∧
    (∀ z : Int, z ≤ 0 →
      (APIKeyService.create_api_key keyHash db now uid name (some z) rawKey).1.expires_at = none ∧
      (APIKeyService.create_api_key keyHash db now uid name (some z) rawKey).2.apiKeys =
        db.apiKeys ++
          [⟨db.nextApiKeyId, keyHash rawKey, uid, name, none, true, none,
            naiveNow now, naiveNow now⟩]) ∧
    (∀ z : Int, 0 < z →
      (APIKeyService.create_api_key keyHash db now uid name (some z) rawKey).1.expires_at =
        some ⟨now + z * 86400, some 0⟩ ∧
      (APIKeyService.create_api_key keyHash db now uid name (some z) rawKey).2.apiKeys =
        db.apiKeys ++
          [⟨db.nextApiKeyId, keyHash rawKey, uid, name, some ⟨now + z * 86400, some 0⟩,
            true, none, naiveNow now, naiveNow now⟩]) := by
  refine ⟨⟨rfl, rfl⟩, ?_, ?_⟩
  · intro z hz
    constructor <;>
      simp [APIKeyService.create_api_key, APIKeyRepository.create, not_lt.mpr hz]
  · intro z hz
    constructor <;>
      simp [APIKeyService.create_api_key, APIKeyRepository.create, hz]

/-- Witness for C10: days `none`, `0` and `-3` all persist a
never-expiring key; `2` days yields the expiry 172800 seconds out. -/
theorem create_api_key_expiry_witness :
    (APIKeyService.create_api_key idHash dbEmpty 0 1 "k" none "raw").1.expires_at = none ∧
    (APIKeyService.create_api_key idHash dbEmpty 0 1 "k" (some 0) "raw").1.expires_at = none ∧
    (APIKeyService.create_api_key idHash dbEmpty 0 1 "k" (some (-3)) "raw").1.expires_at = none ∧
    (APIKeyService.create_api_key idHash dbEmpty 0 1 "k" (some 2) "raw").1.expires_at =
      some ⟨172800, some 0⟩ :=
  ⟨(create_api_key_expiry idHash dbEmpty 0 1 "k" "raw").1.1,
   ((create_api_key_expiry idHash dbEmpty 0 1 "k" "raw").2.1 0 (by decide)).1,
   ((create_api_key_expiry idHash dbEmpty 0 1 "k" "raw").2.1 (-3) (by decide)).1,
   by
    have := ((create_api_key_expiry idHash dbEmpty 0 1 "k" "raw").2.2 2 (by decide)).1
    simpa using this⟩

/-! ### C5: the last-used touch and validation -/

/-- When the touch commit is healthy, `update_last_used` always
succeeds and leaves the user table untouched. -/
theorem update_last_used_ok (db : Db) (now : Int) (i : Nat)
    (hflag : db.lastUsedWriteFails = false) :
    ∃ db', APIKeyRepository.update_last_used db now i = .ok db' ∧ db'.users = db.users := by
  unfold APIKeyRepository.update_last_used
  cases APIKeyRepository.get_by_id db i with
  | none => exact ⟨db, rfl, rfl⟩
  | some k => rw [hflag]; exact ⟨_, rfl, rfl⟩

/-- A found, active, unexpired key makes `validate_api_key` return the
record paired with the touched store whenever the touch succeeds. -/
theorem validate_api_key_ok (keyHash : String → String) (db : Db) (now : Int)
    (raw : String) (k : APIKey)
    (hfind : APIKeyRepository.get_by_key_hash db (keyHash raw) = some k)
    (hact : k.is_active = true)
    (hexp : (k.expires_at.isSome && _is_api_key_expired now k.expires_at) = false)
    (hflag : db.lastUsedWriteFails = false) :
    ∃ db', APIKeyService.validate_api_key keyHash db now raw = .ok (k, db') ∧
      db'.users = db.users := by
  obtain ⟨db', hup, husers⟩ := update_last_used_ok db now k.id hflag
  refine ⟨db', ?_, husers⟩
  simp only [APIKeyService.validate_api_key, hfind, hact, hexp, hup,
    not_true_eq_false, Bool.false_eq_true, if_false]

/-- C5 counterexample: in `dbTouchFail` the key `"k1"` is found, active
and unexpired, yet `validate_api_key` fails with the propagated
`DatabaseError` from the last-used touch instead of returning the
record. -/
theorem validate_api_key_touch_failure_counterexample :
    APIKeyRepository.get_by_key_hash dbTouchFail (idHash "k1") = some keyCi ∧
    keyCi.is_active = true ∧
    (keyCi.expires_at.isSome && _is_api_key_expired 0 keyCi.expires_at) = false ∧
    APIKeyService.validate_api_key idHash dbTouchFail 0 "k1" = .error .dbError := by
  refine ⟨by decide, by decide, by decide, rfl⟩

/-- C5 amended: for a found, active, unexpired key the outcome of
`validate_api_key` is decided by the last-used touch — it returns the
record exactly when the touch commit succeeds, and propagates the
`DatabaseError` (failing the validation) when the commit fails. -/
theorem validate_api_key_touch_outcome (keyHash : String → String) (db : Db)
    (now : Int) (raw : String) (k : APIKey)
    (hfind : APIKeyRepository.get_by_key_hash db (keyHash raw) = some k)
    (hact : k.is_active = true)
    (hexp : (k.expires_at.isSome && _is_api_key_expired now k.expires_at) = false) :
    (db.lastUsedWriteFails = false →
      ∃ db', APIKeyService.validate_api_key keyHash db now raw = .ok (k, db')) ∧
    (db.lastUsedWriteFails = true → APIKeyRepository.get_by_id db k.id ≠ none →
      APIKeyService.validate_api_key keyHash db now raw = .error .dbError) := by
  constructor
  · intro hflag
    obtain ⟨db', h, -⟩ := validate_api_key_ok keyHash db now raw k hfind hact hexp hflag
    exact ⟨db', h⟩
  · intro hflag hid
    have hup : APIKeyRepository.update_last_used db now k.id = .error .dbError := by
      unfold APIKeyRepository.update_last_used
      cases h : APIKeyRepository.get_by_id db k.id with
      | none => exact absurd h hid
      | some _ => simp [hflag]
    simp only [APIKeyService.validate_api_key, hfind, hact, hexp, hup,
      not_true_eq_false, Bool.false_eq_true, if_false]

/-- Witness for the amended C5: with a healthy store the same key
validates successfully. -/
theorem validate_api_key_touch_outcome_witness :
    ∃ db', APIKeyService.validate_api_key idHash dbTouchOk 0 "k1" = .ok (keyCi, db') :=
  (validate_api_key_touch_outcome idHash dbTouchOk 0 "k1" keyCi
    (by decide) (by decide) (by decide)).1 (by decide)

/-! ### C7: revoke idempotence -/

/-- `find?` over a list whose prefix rejects `p` finds the first
accepting element. -/
theorem find?_prefix_first (p : APIKey → Bool) (pre post : List APIKey) (k : APIKey)
    (hpre : ∀ x ∈ pre, p x = false) (hk : p k = true) :
    (pre ++ k :: post).find? p = some k := by
  induction pre with
  | nil => simp [List.find?_cons, hk]
  | cons x xs ih =>
    have hx := hpre x (by simp)
    simp [List.find?_cons, hx, ih (fun y hy => hpre y (by simp [hy]))]

/-- `updateFirst` over a list whose prefix rejects `p` rewrites exactly
the first accepting element. -/
theorem updateFirst_prefix (p : APIKey → Bool) (f : APIKey → APIKey)
    (pre post : List APIKey) (k : APIKey)
    (hpre : ∀ x ∈ pre, p x = false) (hk : p k = true) :
    updateFirst (pre ++ k :: post) p f = pre ++ f k :: post := by
  induction pre with
  | nil => simp [updateFirst, hk]
  | cons x xs ih =>
    have hx := hpre x (by simp)
    simp [updateFirst, hx, ih (fun y hy => hpre y (by simp [hy]))]

/-- C7: for a stored key owned by the caller (the first record matching
its hash or id), `revoke_api_key` succeeds with `true` with no
hypothesis on the record's current `is_active` — so in particular on an
already-inactive record — the stored record is inactive afterwards, and
a second revoke of the same key again returns `true` and leaves it
inactive. -/
theorem revoke_api_key_idempotent (keyHash : String → String) (db : Db)
    (now now2 : Int) (raw : String) (uid : Nat) (pre post : List APIKey) (k : APIKey)
    (hsplit : db.apiKeys = pre ++ k :: post)
    (hpre : ∀ x ∈ pre, (x.key_hash == keyHash raw) = false ∧ (x.id == k.id) = false)
    (hkh : k.key_hash = keyHash raw)
    (howner : k.user_id = uid) :
    ∃ db' db'',
      APIKeyService.revoke_api_key keyHash db now raw uid = .ok (true, db') ∧
      APIKeyRepository.get_by_id db' k.id =
        some { k with is_active := false, updated_at := utcNow now } ∧
      APIKeyService.revoke_api_key keyHash db' now2 raw uid = .ok (true, db'') ∧
      APIKeyRepository.get_by_id db'' k.id =
        some { k with is_active := false, updated_at := utcNow now2 } := by
  have hkh' : (k.key_hash == keyHash raw) = true := beq_iff_eq.mpr hkh
  have hid' : (k.id == k.id) = true := beq_self_eq_true _
  have hpre1 : ∀ x ∈ pre, (fun x => x.key_hash == keyHash raw) x = false :=
    fun x hx => (hpre x hx).1
  have hpre2 : ∀ x ∈ pre, (fun x => x.id == k.id) x = false :=
    fun x hx => (hpre x hx).2
  refine ⟨{ db with apiKeys := pre ++ { k with is_active := false, updated_at := utcNow now } :: post },
    { db with apiKeys := pre ++ { k with is_active := false, updated_at := utcNow now2 } :: post },
    ?_, ?_, ?_, ?_⟩
  · have hfind : APIKeyRepository.get_by_key_hash db (keyHash raw) = some k := by
      unfold APIKeyRepository.get_by_key_hash
      rw [hsplit]
      exact find?_prefix_first _ pre post k hpre1 hkh'
    have hbyid : APIKeyRepository.get_by_id db k.id = some k := by
      unfold APIKeyRepository.get_by_id
      rw [hsplit]
      exact find?_prefix_first _ pre post k hpre2 hid'
    have hrev : APIKeyRepository.revoke db now k.id =
        (true, { db with
          apiKeys := pre ++ { k with is_active := false, updated_at := utcNow now } :: post }) := by
      unfold APIKeyRepository.revoke
      simp only [hbyid]
      rw [hsplit, updateFirst_prefix _ _ pre post k hpre2 hid']
    simp only [APIKeyService.revoke_api_key, hfind]
    rw [if_neg (fun h => h howner), hrev]
  · unfold APIKeyRepository.get_by_id
    show (pre ++ { k with is_active := false, updated_at := utcNow now } :: post).find? _ = _
    exact find?_prefix_first _ pre post _ hpre2 hid'
  · have hfind : APIKeyRepository.get_by_key_hash
        { db with apiKeys := pre ++ { k with is_active := false, updated_at := utcNow now } :: post }
        (keyHash raw) = some { k with is_active := false, updated_at := utcNow now } := by
      unfold APIKeyRepository.get_by_key_hash
      show (pre ++ _ :: post).find? _ = _
      exact find?_prefix_first _ pre post _ hpre1 hkh'
    have hbyid : APIKeyRepository.get_by_id
        { db with apiKeys := pre ++ { k with is_active := false, updated_at := utcNow now } :: post }
        k.id = some { k with is_active := false, updated_at := utcNow now } := by
      unfold APIKeyRepository.get_by_id
      show (pre ++ _ :: post).find? _ = _
      exact find?_prefix_first _ pre post _ hpre2 hid'
    have hrev : APIKeyRepository.revoke
        { db with apiKeys := pre ++ { k with is_active := false, updated_at := utcNow now } :: post }
        now2 k.id =
        (true, { db with
          apiKeys := pre ++ { k with is_active := false, updated_at := utcNow now2 } :: post }) := by
      unfold APIKeyRepository.revoke
      simp only [hbyid]
      show (true, _) = (true, _)
      rw [show updateFirst (pre ++ { k with is_active := false, updated_at := utcNow now } :: post)
          (fun x => x.id == k.id)
          (fun x => { x with is_active := false, updated_at := utcNow now2 }) =
          pre ++ { k with is_active := false, updated_at := utcNow now2 } :: post
        from updateFirst_prefix _ _ pre post _ hpre2 hid']
    simp only [APIKeyService.revoke_api_key, hfind]
    rw [if_neg (fun h => h howner), hrev]
  · unfold APIKeyRepository.get_by_id
    show (pre ++ { k with is_active := false, updated_at := utcNow now2 } :: post).find? _ = _
    exact find?_prefix_first _ pre post _ hpre2 hid'

/-- Witness for C7: revoking `"k1"` in `dbTouchOk` twice, both calls
returning `true` and leaving the record inactive. -/
theorem revoke_api_key_idempotent_witness :
    ∃ db' db'',
      APIKeyService.revoke_api_key idHash dbTouchOk 0 "k1" 1 = .ok (true, db') ∧
      APIKeyRepository.get_by_id db' keyCi.id =
        some { keyCi with is_active := false, updated_at := utcNow 0 } ∧
      APIKeyService.revoke_api_key idHash db' 7 "k1" 1 = .ok (true, db'') ∧
      APIKeyRepository.get_by_id db'' keyCi.id =
        some { keyCi with is_active := false, updated_at := utcNow 7 } :=
  revoke_api_key_idempotent idHash dbTouchOk 0 7 "k1" 1 [] [] keyCi
    (by decide) (by decide) (by decide) (by decide)

/-! ### C9: dual-path convergence -/

/-- C9: the bearer-token path and the API-key path converge.  Both
return the same full `User` record when they resolve the same user (the
identical principal shape), and both apply the same inactive-user rule:
a user with `is_active = false` makes `get_current_user` and
`verify_api_key` each fail with the same 401 `"Inactive user"`. -/
theorem dual_path_convergence (s : Settings) (keyHash : String → String)
    (db : Db) (now : Int) (tok : Jwt) (raw : String) (claims : JwtClaims)
    (u : User) (k : APIKey)
    (hv : verify_token s now tok = .ok claims)
    (hsub : claims.sub = some u.id)
    (hu : db.users.find? (fun x => x.id == u.id) = some u)
    (hk : APIKeyRepository.get_by_key_hash db (keyHash raw) = some k)
    (howner : k.user_id = u.id)
    (hact : k.is_active = true)
    (hexp : (k.expires_at.isSome && _is_api_key_expired now k.expires_at) = false)
    (htouch : db.lastUsedWriteFails = false) :
    (u.is_active = true →
      get_current_user s db now tok = .ok u ∧
      verify_api_key keyHash db now raw = .ok u) ∧
    (u.is_active = false →
      get_current_user s db now tok = .error ⟨401, "Inactive user", true⟩ ∧
      verify_api_key keyHash db now raw = .error ⟨401, "Inactive user", true⟩) := by
  obtain ⟨db', hval, husers⟩ := validate_api_key_ok keyHash db now raw k hk hact hexp htouch
  have hbearer : ∀ b, u.is_active = b →
      get_current_user s db now tok =
        (if b then .ok u else .error ⟨401, "Inactive user", true⟩) := by
    intro b hb
    cases b <;> simp only [get_current_user, hv, hsub, hu, hb, not_false_iff,
      not_true_eq_false, Bool.false_eq_true, if_false, if_true]
  have hapi : ∀ b, u.is_active = b →
      verify_api_key keyHash db now raw =
        (if b then .ok u else .error ⟨401, "Inactive user", true⟩) := by
    intro b hb
    have hu' : db'.users.find? (fun x => x.id == k.user_id) = some u := by
      rw [husers, howner]; exact hu
    cases b <;> simp only [verify_api_key, hval, hu', hb, not_false_iff,
      not_true_eq_false, Bool.false_eq_true, if_false, if_true]
  exact ⟨fun h => ⟨by simpa using hbearer true h, by simpa using hapi true h⟩,
    fun h => ⟨by simpa using hbearer false h, by simpa using hapi false h⟩⟩

/-- Witness for C9: user 1 active in `dbTouchOk` resolves to the same
record on both paths; the inactive user 1 of `dbCarolKey` is rejected
with the same error on both paths. -/
theorem dual_path_convergence_witness :
    (get_current_user settingsEx dbTouchOk 0 tokRefreshEx = .ok userAlice ∧
      verify_api_key idHash dbTouchOk 0 "k1" = .ok userAlice) ∧
    (get_current_user settingsEx dbCarolKey 0 tokRefreshEx =
        .error ⟨401, "Inactive user", true⟩ ∧
      verify_api_key idHash dbCarolKey 0 "k1" =
        .error ⟨401, "Inactive user", true⟩) :=
  ⟨(dual_path_convergence settingsEx idHash dbTouchOk 0 tokRefreshEx "k1"
      tokRefreshEx.claims userAlice keyCi rfl (by decide) (by decide) (by decide)
      (by decide) (by decide) (by decide) (by decide)).1 (by decide),
   (dual_path_convergence settingsEx idHash dbCarolKey 0 tokRefreshEx "k1"
      tokRefreshEx.claims userCarol keyCi rfl (by decide) (by decide) (by decide)
      (by decide) (by decide) (by decide) (by decide)).2 (by decide)⟩
